import Mathlib

/-!
Verification of the radial donut-label placement engine of the dashboard
frontend.  The engine lives in two identical copies of
`makeDonutLabelRenderer` (one per dashboard component file) together with
the simple threshold-filtered renderer `renderDonutLabel`.

The embedding is a direct transcription of the JavaScript/TSX source:
machine floats are modelled by an arbitrary linear ordered field (proofs
use `ℚ` where concrete evaluation is needed and `ℝ` where actual
trigonometry is needed); the two `Math.cos` / `Math.sin` evaluations of
the source are factored out as explicit `cosv` / `sinv` arguments of the
core step function, and the `ℝ`-level wrapper `DonutLabel` reinstates
them as `Real.cos (-midAngle * π / 180)` / `Real.sin (-midAngle * π / 180)`,
exactly as the source computes them.  The mutable closure arrays
`usedLeft` / `usedRight` become an explicit `DonutState` threaded through
the calls.
-/

/-- The per-instance mutable state of `makeDonutLabelRenderer`:
the closure arrays `usedLeft` and `usedRight` of committed label
y-coordinates, one per side of the chart center. -/
structure DonutState (α : Type) where
  left : List α
  right : List α
deriving DecidableEq

/-- The configuration of the factory `makeDonutLabelRenderer(minGap = 16,
extraRadius = 22, showValue = true)`. -/
structure DonutCfg (α : Type) where
  minGap : α
  extraRadius : α
  showValue : Bool
deriving DecidableEq

/-- The props object the chart host passes to the label callback:
`{ cx, cy, midAngle, outerRadius, percent, name, value, fill, index }`.
`percent` is the host's 0–1 share; it is `Option` so that the source's
`(percent || 0)` default is representable. -/
structure SectorProps (α : Type) where
  cx : α
  cy : α
  midAngle : α
  outerRadius : α
  percent : Option α
  name : String
  value : Int
  fill : String
  index : Nat
deriving DecidableEq

/-- The renderable label primitive produced for one sector: the three
polyline points `(x0,y0)`, `(x,y)`, `(x1,y)`, the text position and
anchor, the label text and the fill color. -/
structure DonutOut (α : Type) where
  x0 : α
  y0 : α
  x : α
  y : α
  x1 : α
  xText : α
  anchor : String
  text : String
  fill : String
deriving DecidableEq

/-- JavaScript `Math.round`: round half toward positive infinity,
`Math.round(x) = ⌊x + 0.5⌋`. -/
def jsRound {α : Type} [LinearOrderedField α] [FloorRing α] (q : α) : ℤ :=
  ⌊q + 1 / 2⌋

/-- `stack.every(yy => Math.abs(yy - y) >= minGap)`: every committed
y-coordinate on the side clears the candidate by at least the gap. -/
def allGap {α : Type} [LinearOrderedField α] (g : α) (stack : List α) (y : α) : Bool :=
  stack.all fun yy => decide (g ≤ |yy - y|)

/-- The bounded displacement loop
`for (let i = 0; i < n; i++) { if (stack.every(...)) break; y += dir * minGap }`
as a fuel recursion: at each of the `n` iterations, stop if the candidate
clears every entry, otherwise add `dir * g` and continue; when the fuel is
exhausted the last computed candidate is returned unchecked. -/
def displace {α : Type} [LinearOrderedField α] (stack : List α) (dir g : α) :
    Nat → α → α
  | 0, y => y
  | n + 1, y => if allGap g stack y then y else displace stack dir g n (y + dir * g)

/-- The body of the `DonutLabel` callback returned by
`makeDonutLabelRenderer`, with the two trigonometric evaluations
`Math.cos(-midAngle * RAD)` / `Math.sin(-midAngle * RAD)` supplied as the
arguments `cosv` / `sinv`.  Returns the updated side stacks and the
emitted label primitive.  Transcribed line by line from the source. -/
def donutLabelStep {α : Type} [LinearOrderedField α] [FloorRing α]
    (cfg : DonutCfg α) (st : DonutState α) (p : SectorProps α)
    (cosv sinv : α) : DonutState α × DonutOut α :=
  let pct : α := (p.percent.getD 0) * 100
  let st0 : DonutState α := if p.index = 0 then ⟨[], []⟩ else st
  let x0 := p.cx + p.outerRadius * cosv
  let y0 := p.cy + p.outerRadius * sinv
  let r := p.outerRadius + cfg.extraRadius
  let x := p.cx + r * cosv
  let yc := p.cy + r * sinv
  let stack := if p.cx ≤ x then st0.right else st0.left
  let dir : α := if p.cy ≤ yc then 1 else -1
  let yf := displace stack dir cfg.minGap 60 yc
  let st1 : DonutState α :=
    if p.cx ≤ x then ⟨st0.left, stack ++ [yf]⟩ else ⟨stack ++ [yf], st0.right⟩
  let yLimit := p.outerRadius + cfg.extraRadius + 40
  let y1 := if yf < p.cy - yLimit then p.cy - yLimit else yf
  let y2 := if y1 > p.cy + yLimit then p.cy + yLimit else y1
  let x1a := if p.cx ≤ x then x + 10 else x - 10
  let xMax := p.cx + p.outerRadius + cfg.extraRadius + 20
  let xMin := p.cx - p.outerRadius - cfg.extraRadius - 20
  let x1b := if x1a > xMax then xMax else x1a
  let x1c := if x1b < xMin then xMin else x1b
  let xT := if p.cx ≤ x then x1c + 6 else x1c - 6
  let anch := if p.cx ≤ x then "start" else "end"
  let textOut :=
    if cfg.showValue then
      p.name ++ " " ++ toString (jsRound pct) ++ "% (" ++ toString p.value ++ ")"
    else
      p.name ++ " " ++ toString (jsRound pct) ++ "%"
  (st1, ⟨x0, y0, x, y2, x1c, xT, anch, textOut, p.fill⟩)

/-- One render pass: the host invokes the label callback once per sector,
in order; each list item carries the sector props together with the values
of `Math.cos(-midAngle * RAD)` and `Math.sin(-midAngle * RAD)` for that
sector.  Returns the final side stacks and the emitted label list. -/
def donutRender {α : Type} [LinearOrderedField α] [FloorRing α]
    (cfg : DonutCfg α) :
    DonutState α → List (SectorProps α × α × α) → DonutState α × List (DonutOut α)
  | st, [] => (st, [])
  | st, item :: rest =>
    let r1 := donutLabelStep cfg st item.1 item.2.1 item.2.2
    let r2 := donutRender cfg r1.1 rest
    (r2.1, r1.2 :: r2.2)

/-- The `DonutLabel` callback over the reals, with the source's actual
trigonometry: `cos = Math.cos(-midAngle * RAD)`, `sin = Math.sin(-midAngle * RAD)`
for `RAD = π / 180`. -/
noncomputable def DonutLabel (cfg : DonutCfg ℝ) (st : DonutState ℝ)
    (p : SectorProps ℝ) : DonutState ℝ × DonutOut ℝ :=
  donutLabelStep cfg st p (Real.cos (-p.midAngle * (Real.pi / 180)))
    (Real.sin (-p.midAngle * (Real.pi / 180)))

/-- The label emitted by the threshold-filtered simple renderer
`renderDonutLabel` (and, identically, `renderStationDonutLabel` up to
font constants): text position, anchor, fill and text. -/
structure SimpleOut (α : Type) where
  x : α
  y : α
  anchor : String
  fill : String
  text : String
deriving DecidableEq

/-- The simple renderer `renderDonutLabel`: suppresses the label
(`return null`) when `pct < 3` and the name is not one of the hardcoded
always-show names `'Completed'` / `'In Progress'`; otherwise places the
text at radius `outerRadius + (pct < 3 ? 28 : 18)`.  The two
trigonometric evaluations are again supplied as `cosv` / `sinv`. -/
def renderDonutLabel {α : Type} [LinearOrderedField α] [FloorRing α]
    (p : SectorProps α) (cosv sinv : α) : Option (SimpleOut α) :=
  let pct : α := (p.percent.getD 0) * 100
  let alwaysShow := p.name = "Completed" ∨ p.name = "In Progress"
  if ¬alwaysShow ∧ pct < 3 then none
  else
    let extra : α := if pct < 3 then 28 else 18
    let r := p.outerRadius + extra
    let x := p.cx + r * cosv
    let y := p.cy + r * sinv
    let anch := if p.cx < x then "start" else "end"
    some ⟨x, y, anch, p.fill, p.name ++ " " ++ toString (jsRound pct) ++ "%"⟩

example :
    (donutLabelStep (⟨16, 22, true⟩ : DonutCfg ℚ) ⟨[], []⟩
      ⟨150, 150, 0, 100, some (1/2), "Done", 61, "f", 0⟩ 1 0).2.text
      = "Done 50% (61)" := by with_unfolding_all decide

example :
    (donutLabelStep (⟨16, 22, true⟩ : DonutCfg ℚ) ⟨[], []⟩
      ⟨0, 0, 0, 100, some (1/2), "Done", 61, "f", 1⟩ 0 1).1.right
      = [122] := by with_unfolding_all decide

example :
    renderDonutLabel (⟨150, 150, 0, 100, some (1/50), "Other", 2, "f", 4⟩ :
      SectorProps ℚ) 1 0 = none := by with_unfolding_all decide

lemma displace_add {α : Type} [LinearOrderedField α] (stack : List α) (dir g : α) :
    ∀ (n : ℕ) (y : α), ∃ k : ℕ, k ≤ n ∧
      displace stack dir g n y = y + (k : α) * dir * g := by
  intro n
  induction n with
  | zero => intro y; exact ⟨0, le_refl 0, by simp [displace]⟩
  | succ n ih =>
    intro y
    by_cases h : allGap g stack y = true
    · exact ⟨0, Nat.zero_le _, by simp [displace, h]⟩
    · obtain ⟨k, hk, he⟩ := ih (y + dir * g)
      refine ⟨k + 1, Nat.succ_le_succ hk, ?_⟩
      have hrec : displace stack dir g (n + 1) y
          = displace stack dir g n (y + dir * g) := by
        simp [displace, h]
      rw [hrec, he]
      push_cast
      ring

lemma displace_allGap {α : Type} [LinearOrderedField α] (stack : List α) (dir g : α) :
    ∀ (n m : ℕ) (y : α), m < n →
      allGap g stack (y + (m : α) * dir * g) = true →
      allGap g stack (displace stack dir g n y) = true := by
  intro n
  induction n with
  | zero => intro m y hm; omega
  | succ n ih =>
    intro m y hm hgap
    by_cases h : allGap g stack y = true
    · have hrec : displace stack dir g (n + 1) y = y := by simp [displace, h]
      rw [hrec]; exact h
    · match m with
      | 0 =>
        exfalso
        apply h
        simpa using hgap
      | m' + 1 =>
        have heq : y + ((m' + 1 : ℕ) : α) * dir * g
            = (y + dir * g) + (m' : α) * dir * g := by push_cast; ring
        rw [heq] at hgap
        have hrec : displace stack dir g (n + 1) y
            = displace stack dir g n (y + dir * g) := by simp [displace, h]
        rw [hrec]
        exact ih m' (y + dir * g) (by omega) hgap

/-- C1: within one render pass, for any label already committed to a side's
stack and any later label landing on the same side, if the later label's
bounded displacement search converges within its 60 steps (the gap check
passes at some iteration `m < 60`), then the later label's final (search)
y-coordinate differs from the earlier committed y-coordinate by at least
`minGap`; and while the pass is running (`index ≠ 0`), `donutLabelStep`
only appends to the side stacks, so earlier committed entries are still
present when later labels are placed. -/
theorem c1_same_side_min_gap :
    (∀ (g dir candY yPrev : ℚ) (stack : List ℚ), yPrev ∈ stack →
      (∃ m : ℕ, m < 60 ∧ allGap g stack (candY + (m : ℚ) * dir * g) = true) →
      g ≤ |yPrev - displace stack dir g 60 candY|)
    ∧ (∀ (cfg : DonutCfg ℚ) (st : DonutState ℚ) (p : SectorProps ℚ)
        (cosv sinv : ℚ), p.index ≠ 0 →
      (donutLabelStep cfg st p cosv sinv).1 =
        if p.cx ≤ p.cx + (p.outerRadius + cfg.extraRadius) * cosv then
          ⟨st.left, st.right ++ [displace st.right
            (if p.cy ≤ p.cy + (p.outerRadius + cfg.extraRadius) * sinv then 1 else -1)
            cfg.minGap 60 (p.cy + (p.outerRadius + cfg.extraRadius) * sinv)]⟩
        else
          ⟨st.left ++ [displace st.left
            (if p.cy ≤ p.cy + (p.outerRadius + cfg.extraRadius) * sinv then 1 else -1)
            cfg.minGap 60 (p.cy + (p.outerRadius + cfg.extraRadius) * sinv)],
            st.right⟩) := by
  constructor
  · rintro g dir candY yPrev stack hmem ⟨m, hm, hgap⟩
    have h := displace_allGap stack dir g 60 m candY hm hgap
    simp only [allGap, List.all_eq_true, decide_eq_true_eq] at h
    exact h yPrev hmem
  · intro cfg st p cosv sinv h
    simp only [donutLabelStep, if_neg h]
    split_ifs <;> rfl

/-- C1 witness: with `minGap = 16` and an earlier label committed at
`y = 100` on the side's stack, a later candidate at `y = 100` whose search
converges (at step `m = 1`) ends at least 16 away from 100; and a
concrete `donutLabelStep` call with `index = 1` appends to the incoming
stack `[100]` instead of resetting it. -/
theorem c1_same_side_min_gap_witness :
    ((16 : ℚ) ≤ |100 - displace [(100 : ℚ)] 1 16 60 100|)
    ∧ (donutLabelStep (⟨16, 0, true⟩ : DonutCfg ℚ) ⟨[], [100]⟩
        ⟨0, 0, 0, 0, some 0, "W", 0, "f", 1⟩ 1 1).1
      = ⟨[], [100, 0]⟩ := by
  constructor
  · exact c1_same_side_min_gap.1 16 1 100 100 [100] (by simp)
      ⟨1, by omega, by with_unfolding_all decide⟩
  · have h := c1_same_side_min_gap.2 (⟨16, 0, true⟩ : DonutCfg ℚ) ⟨[], [100]⟩
      ⟨0, 0, 0, 0, some 0, "W", 0, "f", 1⟩ 1 1 (by decide)
    rw [h]
    with_unfolding_all decide

/-- C4: the displacement search starts from the candidate y, moves in
direction `+1` when the candidate y is at or below the chart center
(`candY ≥ cy`, screen coordinates) and `-1` otherwise, adds `dir·minGap`
per step and performs at most 60 steps, accepting the last computed
candidate when the cap is reached; hence the pre-clamp committed result
equals `candY + k·dir·minGap` for some `k` with `0 ≤ k ≤ 60`, and
`donutLabelStep` commits exactly that value to the chosen side's stack. -/
theorem c4_search_shape :
    ∀ (cfg : DonutCfg ℚ) (st : DonutState ℚ) (p : SectorProps ℚ)
      (cosv sinv : ℚ),
      (∃ k : ℕ, k ≤ 60 ∧
        displace
          (if p.cx ≤ p.cx + (p.outerRadius + cfg.extraRadius) * cosv
            then (if p.index = 0 then (⟨[], []⟩ : DonutState ℚ) else st).right
            else (if p.index = 0 then (⟨[], []⟩ : DonutState ℚ) else st).left)
          (if p.cy ≤ p.cy + (p.outerRadius + cfg.extraRadius) * sinv then 1 else -1)
          cfg.minGap 60 (p.cy + (p.outerRadius + cfg.extraRadius) * sinv)
        = p.cy + (p.outerRadius + cfg.extraRadius) * sinv
          + (k : ℚ) * (if p.cy ≤ p.cy + (p.outerRadius + cfg.extraRadius) * sinv
              then 1 else -1) * cfg.minGap)
      ∧ (donutLabelStep cfg st p cosv sinv).1 =
        (if p.cx ≤ p.cx + (p.outerRadius + cfg.extraRadius) * cosv then
          (⟨(if p.index = 0 then (⟨[], []⟩ : DonutState ℚ) else st).left,
            (if p.index = 0 then (⟨[], []⟩ : DonutState ℚ) else st).right
            ++ [displace (if p.index = 0 then (⟨[], []⟩ : DonutState ℚ) else st).right
              (if p.cy ≤ p.cy + (p.outerRadius + cfg.extraRadius) * sinv then 1 else -1)
              cfg.minGap 60 (p.cy + (p.outerRadius + cfg.extraRadius) * sinv)]⟩ :
            DonutState ℚ)
        else
          ⟨(if p.index = 0 then (⟨[], []⟩ : DonutState ℚ) else st).left
            ++ [displace (if p.index = 0 then (⟨[], []⟩ : DonutState ℚ) else st).left
              (if p.cy ≤ p.cy + (p.outerRadius + cfg.extraRadius) * sinv then 1 else -1)
              cfg.minGap 60 (p.cy + (p.outerRadius + cfg.extraRadius) * sinv)],
            (if p.index = 0 then (⟨[], []⟩ : DonutState ℚ) else st).right⟩) := by
  intro cfg st p cosv sinv
  constructor
  · exact displace_add _ _ _ 60 _
  · simp only [donutLabelStep]
    split_ifs <;> rfl

/-- C5: after collision resolution the emitted label y-coordinate is
clamped into `[cy - yLimit, cy + yLimit]` with
`yLimit = outerRadius + extraRadius + 40` (the band being nonempty, i.e.
`yLimit ≥ 0`, as it always is for the data model's positive radii), so no
emitted label lies outside this band regardless of how many displacement
steps occurred. -/
theorem c5_y_clamped :
    ∀ (cfg : DonutCfg ℚ) (st : DonutState ℚ) (p : SectorProps ℚ)
      (cosv sinv : ℚ),
      0 ≤ p.outerRadius + cfg.extraRadius + 40 →
      p.cy - (p.outerRadius + cfg.extraRadius + 40)
          ≤ ((donutLabelStep cfg st p cosv sinv).2).y
      ∧ ((donutLabelStep cfg st p cosv sinv).2).y
          ≤ p.cy + (p.outerRadius + cfg.extraRadius + 40) := by
  intro cfg st p cosv sinv h
  simp only [donutLabelStep]
  split_ifs <;> constructor <;> linarith

/-- C5 witness: a concrete sector (`cy = 150`, `outerRadius = 100`,
`extraRadius = 22`) whose emitted y lies in `[150 - 162, 150 + 162]`. -/
theorem c5_y_clamped_witness :
    (150 : ℚ) - (100 + 22 + 40)
        ≤ ((donutLabelStep (⟨16, 22, true⟩ : DonutCfg ℚ) ⟨[], []⟩
            ⟨150, 150, 0, 100, some (1/2), "Done", 61, "f", 0⟩ 1 0).2).y
    ∧ ((donutLabelStep (⟨16, 22, true⟩ : DonutCfg ℚ) ⟨[], []⟩
          ⟨150, 150, 0, 100, some (1/2), "Done", 61, "f", 0⟩ 1 0).2).y
        ≤ (150 : ℚ) + (100 + 22 + 40) :=
  c5_y_clamped (⟨16, 22, true⟩ : DonutCfg ℚ) ⟨[], []⟩
    ⟨150, 150, 0, 100, some (1/2), "Done", 61, "f", 0⟩ 1 0
    (by norm_num)

/-- C6: the leader line's terminal x is the displaced point's x plus 10
(`leaderLen`) on the right side, minus 10 on the left side, clamped into
`[cx - outerRadius - extraRadius - 20, cx + outerRadius + extraRadius + 20]`
(the sequential two-sided clamp of the source equals
`max lo (min raw hi)`); consequently, for every real `midAngleDeg` — in
particular for the sweep 0°..359° — with `cx = 150`, `cy = 150`,
`outerRadius = 100`, `extraRadius = 22`, the terminal x stays inside
`[150 - 142, 150 + 142]`. -/
theorem c6_leader_terminal_x :
    (∀ (cfg : DonutCfg ℝ) (st : DonutState ℝ) (p : SectorProps ℝ)
        (cosv sinv : ℝ),
      ((donutLabelStep cfg st p cosv sinv).2).x1
        = max (p.cx - p.outerRadius - cfg.extraRadius - 20)
            (min (if p.cx ≤ ((donutLabelStep cfg st p cosv sinv).2).x
                then ((donutLabelStep cfg st p cosv sinv).2).x + 10
                else ((donutLabelStep cfg st p cosv sinv).2).x - 10)
              (p.cx + p.outerRadius + cfg.extraRadius + 20)))
    ∧ (∀ (θ : ℝ) (st : DonutState ℝ) (g : ℝ) (sv : Bool) (nm fl : String)
        (v : ℤ) (idx : ℕ) (pc : Option ℝ),
      150 - 142
          ≤ ((DonutLabel ⟨g, 22, sv⟩ st ⟨150, 150, θ, 100, pc, nm, v, fl, idx⟩).2).x1
      ∧ ((DonutLabel ⟨g, 22, sv⟩ st ⟨150, 150, θ, 100, pc, nm, v, fl, idx⟩).2).x1
          ≤ 150 + 142) := by
  constructor
  · intro cfg st p cosv sinv
    simp only [donutLabelStep]
    rw [max_def, min_def]
    split_ifs <;> linarith
  · intro θ st g sv nm fl v idx pc
    simp only [DonutLabel, donutLabelStep]
    split_ifs <;> constructor <;> linarith

/-- C7: the side stacks are cleared exactly when the processed sector
carries `index = 0` — a step at `index = 0` ignores (and replaces) any
incoming stack state, while a step at `index ≠ 0` performs no reset: the
incoming entries of both side stacks persist (the step only appends), so
a pass whose first-processed sector does not carry index 0 inherits the
previous pass's collision history. -/
theorem c7_reset_on_index_zero :
    (∀ (cfg : DonutCfg ℚ) (s1 s2 : DonutState ℚ) (p : SectorProps ℚ)
        (cosv sinv : ℚ), p.index = 0 →
      donutLabelStep cfg s1 p cosv sinv = donutLabelStep cfg s2 p cosv sinv)
    ∧ (∀ (cfg : DonutCfg ℚ) (s : DonutState ℚ) (p : SectorProps ℚ)
        (cosv sinv : ℚ), p.index ≠ 0 →
      ∃ tL tR, (donutLabelStep cfg s p cosv sinv).1.left = s.left ++ tL
        ∧ (donutLabelStep cfg s p cosv sinv).1.right = s.right ++ tR) := by
  constructor
  · intro cfg s1 s2 p cosv sinv h
    simp only [donutLabelStep, if_pos h]
  · intro cfg s p cosv sinv h
    simp only [donutLabelStep, if_neg h]
    split_ifs <;>
      first
      | exact ⟨[], _, by simp, rfl⟩
      | exact ⟨_, [], rfl, by simp⟩

/-- C7 witness: at `index = 0` a populated incoming state and the empty
state give the same result; at `index = 1` the incoming stacks `[5]` and
`[7]` persist as prefixes. -/
theorem c7_reset_on_index_zero_witness :
    (donutLabelStep (⟨16, 22, true⟩ : DonutCfg ℚ) ⟨[5], [7]⟩
        ⟨150, 150, 0, 100, some (1/2), "A", 3, "f", 0⟩ 1 0
      = donutLabelStep (⟨16, 22, true⟩ : DonutCfg ℚ) ⟨[], []⟩
        ⟨150, 150, 0, 100, some (1/2), "A", 3, "f", 0⟩ 1 0)
    ∧ (∃ tL tR,
      (donutLabelStep (⟨16, 22, true⟩ : DonutCfg ℚ) ⟨[5], [7]⟩
          ⟨150, 150, 0, 100, some (1/2), "A", 3, "f", 1⟩ 1 0).1.left
        = [(5 : ℚ)] ++ tL
      ∧ (donutLabelStep (⟨16, 22, true⟩ : DonutCfg ℚ) ⟨[5], [7]⟩
          ⟨150, 150, 0, 100, some (1/2), "A", 3, "f", 1⟩ 1 0).1.right
        = [(7 : ℚ)] ++ tR) :=
  ⟨c7_reset_on_index_zero.1 (⟨16, 22, true⟩ : DonutCfg ℚ) ⟨[5], [7]⟩ ⟨[], []⟩
      ⟨150, 150, 0, 100, some (1/2), "A", 3, "f", 0⟩ 1 0 rfl,
    c7_reset_on_index_zero.2 (⟨16, 22, true⟩ : DonutCfg ℚ) ⟨[5], [7]⟩
      ⟨150, 150, 0, 100, some (1/2), "A", 3, "f", 1⟩ 1 0 (by decide)⟩

/-- C8: for every processed sector the emitted label text is
`"<name> <round(pct)>% (<value>)"` when `showValue` is true and
`"<name> <round(pct)>%"` otherwise, where `pct = percent·100` is the
sector's share on the 0–100 scale (`percent` being the host's 0–1 share)
and rounding is JavaScript `Math.round`; concretely a 30.5% share rounds
to `31`. -/
theorem c8_label_text :
    (∀ (cfg : DonutCfg ℚ) (st : DonutState ℚ) (p : SectorProps ℚ)
        (cosv sinv : ℚ),
      ((donutLabelStep cfg st p cosv sinv).2).text
        = if cfg.showValue then
            p.name ++ " " ++ toString (jsRound ((p.percent.getD 0) * 100))
              ++ "% (" ++ toString p.value ++ ")"
          else
            p.name ++ " " ++ toString (jsRound ((p.percent.getD 0) * 100)) ++ "%")
    ∧ ((donutLabelStep (⟨16, 22, true⟩ : DonutCfg ℚ) ⟨[], []⟩
        ⟨150, 150, 0, 100, some (61/200), "Done", 61, "f", 0⟩ 1 0).2).text
      = "Done 31% (61)"
    ∧ ((donutLabelStep (⟨16, 22, false⟩ : DonutCfg ℚ) ⟨[], []⟩
        ⟨150, 150, 0, 100, some (61/200), "Done", 61, "f", 0⟩ 1 0).2).text
      = "Done 31%" := by
  refine ⟨?_, ?_, ?_⟩
  · intro cfg st p cosv sinv
    simp only [donutLabelStep]
  · with_unfolding_all decide
  · with_unfolding_all decide

/-- C9: label placement is deterministic and there is no state shared
between placer instances: two independently constructed instances (each
starting from the factory's fresh empty side stacks) given the same
configuration and the same ordered sector list produce identical output
lists. -/
theorem c9_deterministic :
    ∀ (cfg : DonutCfg ℚ) (xs : List (SectorProps ℚ × ℚ × ℚ))
      (s1 s2 : DonutState ℚ),
      s1 = ⟨[], []⟩ → s2 = ⟨[], []⟩ →
      donutRender cfg s1 xs = donutRender cfg s2 xs := by
  intro cfg xs s1 s2 h1 h2
  rw [h1, h2]

/-- C9 witness: two freshly constructed instances agree on a concrete
two-sector pass. -/
theorem c9_deterministic_witness :
    donutRender (⟨16, 22, true⟩ : DonutCfg ℚ) ⟨[], []⟩
        [(⟨150, 150, 0, 100, some (1/2), "A", 3, "f", 0⟩, 1, 0),
          (⟨150, 150, 90, 100, some (1/2), "B", 4, "f", 1⟩, 0, 1)]
      = donutRender (⟨16, 22, true⟩ : DonutCfg ℚ) ⟨[], []⟩
        [(⟨150, 150, 0, 100, some (1/2), "A", 3, "f", 0⟩, 1, 0),
          (⟨150, 150, 90, 100, some (1/2), "B", 4, "f", 1⟩, 0, 1)] :=
  c9_deterministic (⟨16, 22, true⟩ : DonutCfg ℚ)
    [(⟨150, 150, 0, 100, some (1/2), "A", 3, "f", 0⟩, 1, 0),
      (⟨150, 150, 90, 100, some (1/2), "B", 4, "f", 1⟩, 0, 1)]
    ⟨[], []⟩ ⟨[], []⟩ rfl rfl

/-- C2 counterexample: the always-show set is not caller-supplied. Under
the claim's scenario of an empty always-show set, a sector named
`"Completed"` with percent 2 (below 3, name not in the empty set) would
have to be suppressed, but `renderDonutLabel` shows it: its always-show
names are hardcoded. -/
theorem c2_threshold_counterexample :
    ¬ ((renderDonutLabel (⟨150, 150, 0, 100, some (1/50), "Completed", 4,
          "f", 0⟩ : SectorProps ℚ) 1 0 = none)
      ↔ (((⟨150, 150, 0, 100, some (1/50), "Completed", 4, "f", 0⟩ :
            SectorProps ℚ).percent.getD 0) * 100 < 3
        ∧ "Completed" ∉ ([] : List String))) := by
  with_unfolding_all decide

/-- C2 amended: a sector's label is suppressed by `renderDonutLabel`
exactly when its percent (0–100 scale) is below 3 and its name is not in
the always-show set, but that set is hardcoded to
`{"Completed", "In Progress"}` rather than supplied by the caller; for
sectors with percentages `[50, 30, 15, 5]` the percent-5 sector is shown,
and an added percent-2 sector with a name outside the hardcoded set is
suppressed. -/
theorem c2_threshold_amended :
    (∀ (p : SectorProps ℚ) (cosv sinv : ℚ),
      renderDonutLabel p cosv sinv = none
        ↔ ((p.percent.getD 0) * 100 < 3
          ∧ p.name ≠ "Completed" ∧ p.name ≠ "In Progress"))
    ∧ renderDonutLabel (⟨150, 150, 0, 100, some (1/2), "S1", 50, "f", 0⟩ :
        SectorProps ℚ) 1 0 ≠ none
    ∧ renderDonutLabel (⟨150, 150, 0, 100, some (3/10), "S2", 30, "f", 1⟩ :
        SectorProps ℚ) 1 0 ≠ none
    ∧ renderDonutLabel (⟨150, 150, 0, 100, some (3/20), "S3", 15, "f", 2⟩ :
        SectorProps ℚ) 1 0 ≠ none
    ∧ renderDonutLabel (⟨150, 150, 0, 100, some (1/20), "S4", 5, "f", 3⟩ :
        SectorProps ℚ) 1 0 ≠ none
    ∧ renderDonutLabel (⟨150, 150, 0, 100, some (1/50), "Other", 2, "f", 4⟩ :
        SectorProps ℚ) 1 0 = none := by
  refine ⟨?_, by with_unfolding_all decide, by with_unfolding_all decide,
    by with_unfolding_all decide, by with_unfolding_all decide,
    by with_unfolding_all decide⟩
  intro p cosv sinv
  simp only [renderDonutLabel]
  split_ifs with h
  · obtain ⟨hno, hlt⟩ := h
    rw [not_or] at hno
    simp [hlt, hno.1, hno.2]
  · constructor
    · intro hc
      simp at hc
    · rintro ⟨h1, h2, h3⟩
      exact absurd ⟨not_or.mpr ⟨h2, h3⟩, h1⟩ h

/-- C3 counterexample: `DonutLabel` performs no geometry validation. A
sector with `outerRadius = 0` is not omitted: the pass still emits one
label for it (and for every other sector) with the usual text. -/
theorem c3_no_omission_counterexample :
    ((donutRender (⟨16, 22, true⟩ : DonutCfg ℚ) ⟨[], []⟩
        [(⟨150, 150, 0, 0, some 0, "Bad", 1, "f", 0⟩, 1, 0),
          (⟨150, 150, 0, 100, some (1/2), "Good", 2, "f", 1⟩, 1, 0)]).2).map
        (fun o => o.text)
      = ["Bad 0% (1)", "Good 50% (2)"] := by
  with_unfolding_all decide

/-- C3 amended: no validity check on `outerRadius` or the mid-angle is
performed anywhere in the label callback: a render pass emits exactly one
label per processed sector, whatever its geometry (in particular labels of
other sectors are always produced as well). -/
theorem c3_one_label_per_sector :
    ∀ (cfg : DonutCfg ℚ) (st : DonutState ℚ)
      (xs : List (SectorProps ℚ × ℚ × ℚ)),
      ((donutRender cfg st xs).2).length = xs.length := by
  intro cfg st xs
  induction xs generalizing st with
  | nil => rfl
  | cons x rest ih => simp [donutRender, ih]

/-- C10: the y-coordinate recorded on the side's stack is the pre-clamp
search result.  Concretely (`cx = cy = 0`, `outerRadius = 100`,
`extraRadius = 22`, `minGap = 50`, three sectors at the bottom of the
chart, `cos = 0`, `sin = 1`): the stack remembers `[122, 172, 222]` while
the emitted y-coordinates are `[122, 162, 162]` — the second label's
rendered y (162, the band boundary `cy + 162`) differs from the 172 the
stack remembers, and the second and third labels, whose searches both
converged (the gap check passes at steps `m = 1` and `m = 2`), are
rendered at the same y because both are clamped to the boundary. -/
theorem c10_stack_records_pre_clamp :
    ((donutRender (⟨50, 22, true⟩ : DonutCfg ℚ) ⟨[], []⟩
        [(⟨0, 0, -90, 100, some (1/3), "A", 1, "f", 0⟩, 0, 1),
          (⟨0, 0, -90, 100, some (1/3), "B", 2, "f", 1⟩, 0, 1),
          (⟨0, 0, -90, 100, some (1/3), "C", 3, "f", 2⟩, 0, 1)]).1).right
      = [122, 172, 222]
    ∧ ((donutRender (⟨50, 22, true⟩ : DonutCfg ℚ) ⟨[], []⟩
        [(⟨0, 0, -90, 100, some (1/3), "A", 1, "f", 0⟩, 0, 1),
          (⟨0, 0, -90, 100, some (1/3), "B", 2, "f", 1⟩, 0, 1),
          (⟨0, 0, -90, 100, some (1/3), "C", 3, "f", 2⟩, 0, 1)]).2).map
        (fun o => o.y)
      = [122, 162, 162]
    ∧ allGap (50 : ℚ) [122] (122 + (1 : ℚ) * 1 * 50) = true
    ∧ allGap (50 : ℚ) [122, 172] (122 + (2 : ℚ) * 1 * 50) = true := by
  refine ⟨?_, ?_, ?_, ?_⟩ <;> with_unfolding_all decide
